import Mathlib

/-!
Verification of the CRM-MCP tool pipeline (argument standardization →
query execution → result formatting, with a per-invocation debug trace).

The Python source is shallowly embedded: every pure computation becomes a
Lean function, and the effectful collaborators (the Bedrock LLM service,
the PostgreSQL database, the remote system-prompt store, and the Python
`json` library) are supplied through an explicit environment `Env`.
Exceptions are modelled with `Except PyExn`; observable side effects
(outbound LLM calls, SQL statements handed to a database cursor) are
collected in an `Effects` log threaded through each pipeline.
-/

set_option autoImplicit false

namespace CRM

/-- A Python value as produced by `json.loads` / manipulated by the tools. -/
inductive PyVal where
  | none
  | bool (b : Bool)
  | int (n : Int)
  | str (s : String)
  | list (xs : List PyVal)
  | dict (kvs : List (String × PyVal))

/-- A Python exception: its type name (`type(e).__name__`) and `str(e)`. -/
structure PyExn where
  ty : String
  msg : String

/-- Python truthiness (`if x:`). -/
def PyVal.truthy : PyVal → Bool
  | .none => false
  | .bool b => b
  | .int n => n != 0
  | .str s => !(s.isEmpty)
  | .list xs => !(xs.isEmpty)
  | .dict kvs => !(kvs.isEmpty)

def PyVal.isNone : PyVal → Bool
  | .none => true
  | _ => false

def PyVal.isList : PyVal → Bool
  | .list _ => true
  | _ => false

mutual
/-- Python `repr` of a value (approximate; used only for trace text). -/
def pyRepr : PyVal → String
  | .none => "None"
  | .bool true => "True"
  | .bool false => "False"
  | .int n => toString n
  | .str s => "\x27" ++ s ++ "\x27"
  | .list xs => "[" ++ String.intercalate ", " (pyReprList xs) ++ "]"
  | .dict kvs => "\x7b" ++ String.intercalate ", " (pyReprKVs kvs) ++ "\x7d"

def pyReprList : List PyVal → List String
  | [] => []
  | v :: vs => pyRepr v :: pyReprList vs

def pyReprKVs : List (String × PyVal) → List String
  | [] => []
  | (k, v) :: kvs => ("\x27" ++ k ++ "\x27: " ++ pyRepr v) :: pyReprKVs kvs
end

/-- Python `str()` (bare text for strings, `repr` for everything else). -/
def pyStr : PyVal → String
  | .str s => s
  | v => pyRepr v

/-- First binding of `key` in the entry list of a dict, if present. -/
def pyFind : List (String × PyVal) → String → Option PyVal
  | [], _ => Option.none
  | (k, v) :: kvs, key => if k == key then some v else pyFind kvs key

/-- Python `dict.get(key)`: `None` when the key is absent. -/
def pyLookup (kvs : List (String × PyVal)) (key : String) : PyVal :=
  (pyFind kvs key).getD PyVal.none

/-- Python `x.get(key)` on an arbitrary value: `AttributeError` unless a dict. -/
def pyDictGet : PyVal → String → Except PyExn PyVal
  | .dict kvs, k => .ok (pyLookup kvs k)
  | _, _ => .error ⟨"AttributeError", "object has no attribute get"⟩

/-- Python `x.get(key, default)` on an arbitrary value. -/
def pyDictGetD : PyVal → String → PyVal → Except PyExn PyVal
  | .dict kvs, k, dflt => .ok ((pyFind kvs k).getD dflt)
  | _, _, _ => .error ⟨"AttributeError", "object has no attribute get"⟩

/-- The sequence of values handed to `cursor.execute` as bound
parameters: the elements when the value is a list, the value itself
otherwise. -/
def pyParamSeq : PyVal → List PyVal
  | .list xs => xs
  | v => [v]

/-- Python `len()`: `TypeError` on unsized values. -/
def pyLen : PyVal → Except PyExn Nat
  | .str s => .ok s.length
  | .list xs => .ok xs.length
  | .dict kvs => .ok kvs.length
  | _ => .error ⟨"TypeError", "object has no len"⟩

/-- Holds (`charPre p s = true`) iff the char list `p` is an initial segment of `s`. -/
def charPre : List Char → List Char → Bool
  | [], _ => true
  | _ :: _, [] => false
  | a :: as, b :: bs => a == b && charPre as bs

/-- Holds (`charSub hay pat = true`) iff `pat` occurs contiguously inside `hay`. -/
def charSub : List Char → List Char → Bool
  | [], pat => pat.isEmpty
  | h :: t, pat => charPre pat (h :: t) || charSub t pat

/-- Python substring test `pat in s`. -/
def containsSub (s pat : String) : Bool :=
  charSub s.data pat.data

/-- Tests that `pat` is an initial segment of `s` (used to state C8). -/
def strStarts (s pat : String) : Bool :=
  charPre pat.data s.data

/-- Outcome of the HTTP fetch that backs the system-prompt store
(`httpx` GET against the prompt-management API).  `success t?` is an HTTP
200 whose JSON body has (`some`) or lacks (`none`) the `prompt_text`
field; `httpStatus c` is a non-200 status; `failure e` a transport
exception. -/
inductive PromptFetch where
  | success (promptText : Option String)
  | httpStatus (code : Nat)
  | failure (e : PyExn)

/-- A row of the cash-inflow sales-note query
(`customer_id, name, sn.content as sales_note`). -/
structure NoteRow where
  customer_id : PyVal
  name : PyVal
  sales_note : String

/-- A date value coming out of the database; `iso` is its
`isoformat()` rendering. -/
structure PyDate where
  iso : String

/-- A row of the bond-maturity query. -/
structure BondRow where
  customer_id : PyVal
  name : PyVal
  email : PyVal
  phone : PyVal
  risk_tolerance : PyVal
  maturity_date : Option PyDate
  product_name : PyVal
  product_type : PyVal

/-- A row of the customer-holdings query.  Numeric columns are nullable;
Python renders them through `float(x) if x else 0` (numbers modelled as
integers — no claim depends on fractional arithmetic). -/
structure HoldRow where
  holding_id : PyVal
  customer_id : PyVal
  customer_name : PyVal
  product_code : PyVal
  product_name : PyVal
  product_type : PyVal
  quantity : Option Int
  unit_price : Option Int
  current_price : Option Int
  current_value : Option Int
  currency : PyVal
  purchase_date : Option PyDate

/-- The environment of external collaborators: the prompt store, the
Bedrock LLM transport, the (spec-modelled) simple LLM gateway, the Python
`json` library, and the database.  Each tool reads only the fields it
uses; theorems quantify over all environments. -/
structure Env where
  promptStore : String → PromptFetch
  bedrock : String → String → Except PyExn String
  llmSimple : String → String × Nat
  jsonLoads : String → Except PyExn PyVal
  jsonDumps : PyVal → String
  dbConn : Except PyExn Unit
  bondDb : Except PyExn (List BondRow)
  holdingsDb : Except PyExn (List HoldRow)
  notesDb : Except PyExn (List NoteRow)
  productDb : Except PyExn (List PyVal)
  queryDb : Except PyExn (List PyVal)
  elapsedMs : Nat

/-- Observable side effects of one invocation: number of outbound LLM
calls, and every SQL statement (with its bound parameters) handed to a
database cursor. -/
structure Effects where
  llmCalls : Nat := 0
  dbQueries : List (String × List PyVal) := []

def effInit : Effects := {}

def bumpLlm (eff : Effects) : Effects :=
  { eff with llmCalls := eff.llmCalls + 1 }

def logQuery (eff : Effects) (q : String) (ps : List PyVal) : Effects :=
  { eff with dbQueries := eff.dbQueries ++ [(q, ps)] }

/-! ### utils/llm_util.py -/

/-- The text produced by `LLMUtil.call_claude`: the Bedrock response on
success, a sentinel error string (never an exception) on failure
(utils/llm_util.py lines 53-92). -/
def claudeText (env : Env) (system_prompt user_message : String) : String :=
  match env.bedrock system_prompt user_message with
  | .ok t => t
  | .error e => "LLMエラー: " ++ e.msg

/-- Source `LLMUtil.call_claude`, instrumented with the outbound-call counter. -/
def call_claude (env : Env) (system_prompt user_message : String)
    (eff : Effects) : String × Effects :=
  (claudeText env system_prompt user_message, bumpLlm eff)

/-- Modelled from the spec: `llm_util.call_llm_simple` is referenced by
all four tools but absent from the sources; §4.1 (LLM Gateway) specifies
a call that submits one combined prompt and returns generated text plus
an execution time, converting any service failure into a sentinel string
rather than raising.  The environment supplies the returned pair. -/
def call_llm_simple (env : Env) (full_prompt : String)
    (eff : Effects) : (String × Nat) × Effects :=
  (env.llmSimple full_prompt, bumpLlm eff)

/-! ### utils/database.py and utils/system_prompt.py -/

/-- Source `utils.database._get_fallback_prompt` (lines 64-69): the fixed
fallback, selected by the substring test `"pre" in prompt_key`. -/
def get_fallback_prompt (prompt_key : String) : String :=
  if containsSub prompt_key "pre" then
    "Convert input to standard format. Respond in JSON only."
  else
    "Format the results in a readable text format."

/-- Source `utils.database.get_system_prompt` (lines 39-62): prompt text on a
200 response carrying `prompt_text`; the fixed fallback on 404, on any
other status, on a missing `prompt_text` key (the `KeyError` is caught by
the surrounding `except`), and on transport failure.  Total: never
raises. -/
def dbGetSystemPrompt (env : Env) (prompt_key : String) : String :=
  match env.promptStore prompt_key with
  | .success (some t) => t
  | .success Option.none => get_fallback_prompt prompt_key
  | .httpStatus _ => get_fallback_prompt prompt_key
  | .failure _ => get_fallback_prompt prompt_key

/-- Source `utils.system_prompt.get_system_prompt` (lines 3-19): prompt text on
a 200 response carrying `prompt_text`; otherwise a message embedding the
key and the cause.  (A 200 body lacking `prompt_text` raises `KeyError`
inside the `try`, caught by the `except` which formats `str(e)`, i.e.
`\x27prompt_text\x27`.)  Total: never raises. -/
def spGetSystemPrompt (env : Env) (prompt_key : String) : String :=
  match env.promptStore prompt_key with
  | .success (some t) => t
  | .success Option.none =>
      "システムプロンプトが取得できませんでした (key: " ++ prompt_key ++
        ", error: \x27prompt_text\x27)"
  | .httpStatus code =>
      "システムプロンプトが取得できませんでした (key: " ++ prompt_key ++
        ", status: " ++ toString code ++ ")"
  | .failure e =>
      "システムプロンプトが取得できませんでした (key: " ++ prompt_key ++
        ", error: " ++ e.msg ++ ")"

/-- Modelled from the spec: `llm_util.get_system_prompt` (used by
`format_customer_holdings_results`) is absent from the sources; §4.2
(Prompt Store Client) specifies resolution by key with a fixed
pre/post-dependent fallback on miss or failure, never raising. -/
def llmUtilGetSystemPrompt (env : Env) (prompt_key : String) : String :=
  match env.promptStore prompt_key with
  | .success (some t) => t
  | _ => get_fallback_prompt prompt_key

/-- Source `utils.database.execute_query` (lines 21-37): acquires a connection
(`get_db_connection` raises `HTTPException` on connect failure), runs the
statement, and re-raises (`raise e`) any database error to the caller. -/
def execute_query (env : Env) (query : String) (params : List PyVal)
    (eff : Effects) : Except PyExn (List PyVal) × Effects :=
  match env.dbConn with
  | .error e => (.error e, eff)
  | .ok _ =>
    let eff := logQuery eff query params
    match env.queryDb with
    | .error e => (.error e, eff)
    | .ok rows => (.ok rows, eff)

/-! ### The MCP response envelope

`MCPResponse` (crm_mcp_server.py lines 49-54; the tools import the same
model from `models`): `result` is `Any` defaulting to `None` — the tool
pipelines only ever supply strings, so it is embedded as `Option String`.
`debug_response` carries the tool-specific trace. -/

structure MCPResponse (τ : Type) where
  jsonrpc : String := "2.0"
  id : Option Int := Option.none
  result : Option String := Option.none
  error : Option String := Option.none
  debug_response : Option τ := Option.none

/-! ### tools/bond_maturity.py -/

/-- The `tool_debug` dict of `search_customers_by_bond_maturity`
(lines 20-30), initialised with every slot `None`. -/
structure BondTrace where
  format_request : Option String := Option.none
  standardize_prompt : Option String := Option.none
  standardize_response : Option String := Option.none
  standardize_parameter : Option String := Option.none
  executed_query : Option String := Option.none
  executed_query_results : Option (List PyVal) := Option.none
  format_response : Option String := Option.none
  execution_time_ms : Option Nat := Option.none
  results_count : Option Nat := Option.none

def bondTraceInit : BondTrace := {}

/-- Source `standardize_bond_maturity_arguments` (lines 73-99): fetch the pre
prompt, call the LLM, record prompt and raw response in the trace, then
parse; on `JSONDecodeError` record the error annotation and return the
empty dict. -/
def standardize_bond_maturity_arguments (env : Env) (raw_input : String)
    (d : BondTrace) (eff : Effects) : PyVal × BondTrace × Effects :=
  let system_prompt := spGetSystemPrompt env "search_customers_by_bond_maturity_pre"
  let (response, eff) := call_claude env system_prompt raw_input eff
  let full_prompt_text := system_prompt ++ "\n\nUser Input: " ++ raw_input
  let d := { d with standardize_prompt := some full_prompt_text,
                    standardize_response := some response }
  match env.jsonLoads response with
  | .ok standardized_params =>
      (standardized_params,
       { d with standardize_parameter := some (pyStr standardized_params) }, eff)
  | .error e =>
      (PyVal.dict [],
       { d with standardize_parameter := some ("JSONパースエラー: " ++ e.msg) }, eff)

/-- The fixed part of the bond-maturity SQL statement (lines 107-114). -/
def bondBaseQuery : String :=
  "\n    SELECT DISTINCT c.customer_id, c.name, c.email, c.phone, c.risk_tolerance,\n           h.maturity_date, p.product_name, p.product_type\n    FROM customers c\n    JOIN holdings h ON c.customer_id = h.customer_id\n    JOIN products p ON h.product_id = p.product_id\n    WHERE p.product_type ILIKE \x27%債券%\x27 OR p.product_type ILIKE \x27%bond%\x27\n    "

/-- Row-to-dict projection of the bond query result loop (lines 148-159),
with `isoformat()` applied to a non-null maturity date. -/
def bondRowToCustomer (r : BondRow) : PyVal :=
  PyVal.dict
    [("customer_id", r.customer_id), ("name", r.name), ("email", r.email),
     ("phone", r.phone), ("risk_tolerance", r.risk_tolerance),
     ("maturity_date",
       match r.maturity_date with
       | some dt => PyVal.str dt.iso
       | Option.none => PyVal.none),
     ("product_name", r.product_name), ("product_type", r.product_type)]

/-- Source `execute_bond_maturity_query` (lines 101-164).  Note the truthy
`days_until_maturity` is interpolated into the SQL text via an f-string
(line 118) while the two date bounds are bound as parameters. -/
def execute_bond_maturity_query (env : Env)
    (days_until_maturity maturity_date_from maturity_date_to : PyVal)
    (d : BondTrace) (eff : Effects) :
    Except PyExn (List PyVal) × BondTrace × Effects :=
  match env.dbConn with
  | .error e => (.error e, d, eff)
  | .ok _ =>
    let query := bondBaseQuery
    let query_params : List PyVal := []
    let (query, query_params) :=
      if days_until_maturity.truthy then
        (query ++ " AND h.maturity_date <= CURRENT_DATE + INTERVAL \x27" ++
           pyStr days_until_maturity ++ " days\x27", query_params)
      else (query, query_params)
    let (query, query_params) :=
      if maturity_date_from.truthy then
        (query ++ " AND h.maturity_date >= %s", query_params ++ [maturity_date_from])
      else (query, query_params)
    let (query, query_params) :=
      if maturity_date_to.truthy then
        (query ++ " AND h.maturity_date <= %s", query_params ++ [maturity_date_to])
      else (query, query_params)
    let query := query ++ " ORDER BY h.maturity_date ASC"
    let d := { d with executed_query := some query }
    let eff := logQuery eff query query_params
    match env.bondDb with
    | .error e => (.error e, d, eff)
    | .ok results =>
      let customers := results.map bondRowToCustomer
      (.ok customers, { d with executed_query_results := some customers }, eff)

/-- Source `format_bond_maturity_results` (lines 166-189): fixed no-results
sentence on an empty row set (before any prompt fetch or LLM call);
otherwise post prompt + serialized rows → LLM. -/
def format_bond_maturity_results (env : Env) (customers : List PyVal)
    (user_input : String) (d : BondTrace) (eff : Effects) :
    String × BondTrace × Effects :=
  if customers.isEmpty then
    ("債券満期検索結果: 該当する顧客はいませんでした。", d, eff)
  else
    let system_prompt := spGetSystemPrompt env "search_customers_by_bond_maturity_post"
    let data_json := env.jsonDumps (PyVal.list customers)
    let full_prompt := system_prompt ++ "\n\nData:\n" ++ data_json
    let d := { d with format_request := some full_prompt }
    let ((result_text, _time), eff) := call_llm_simple env full_prompt eff
    (result_text, { d with format_response := some result_text }, eff)

/-- The `except` branch of `search_customers_by_bond_maturity`
(lines 61-71): message as result text, `str(e)` in the error field, the
by-reference trace kept as accumulated. -/
def bondError (env : Env) (e : PyExn) (d : BondTrace) (eff : Effects) :
    MCPResponse BondTrace × Effects :=
  ({ result := some ("債券満期検索エラー: " ++ e.msg),
     error := some e.msg,
     debug_response := some { d with execution_time_ms := some env.elapsedMs,
                                     results_count := some 0 } }, eff)

/-- Source `search_customers_by_bond_maturity` (lines 12-71). -/
def search_customers_by_bond_maturity (env : Env) (params : PyVal) :
    MCPResponse BondTrace × Effects :=
  let raw := pyStr params
  match standardize_bond_maturity_arguments env raw bondTraceInit effInit with
  | (standardized_params, d, eff) =>
    match pyDictGet standardized_params "days_until_maturity" with
    | .error e => bondError env e d eff
    | .ok days_until_maturity =>
      match pyDictGet standardized_params "maturity_date_from" with
      | .error e => bondError env e d eff
      | .ok maturity_date_from =>
        match pyDictGet standardized_params "maturity_date_to" with
        | .error e => bondError env e d eff
        | .ok maturity_date_to =>
          match execute_bond_maturity_query env days_until_maturity
              maturity_date_from maturity_date_to d eff with
          | (.error e, d, eff) => bondError env e d eff
          | (.ok customers, d, eff) =>
            match format_bond_maturity_results env customers raw d eff with
            | (result_text, d, eff) =>
              ({ result := some result_text,
                 debug_response :=
                   some { d with execution_time_ms := some env.elapsedMs,
                                 results_count := some customers.length } }, eff)

/-! ### tools/customer_holdings.py -/

/-- The debug dicts built by `get_customer_holdings`.  Unlike the bond
tool there is no up-front initialisation: a fresh dict is built on each
terminal path, with different key sets (absent keys are `none`). -/
structure HoldTrace where
  error : Option String := Option.none
  error_type : Option String := Option.none
  standardize_prompt : Option String := Option.none
  standardize_response : Option String := Option.none
  standardize_parameter : Option String := Option.none
  executed_query : Option String := Option.none
  executed_query_results : Option (List PyVal) := Option.none
  format_response : Option String := Option.none
  execution_time_ms : Option Nat := Option.none
  results_count : Option Nat := Option.none

/-- The combined prompt built by `standardize_customer_arguments`
(lines 16-19). -/
def holdFullPrompt (env : Env) (raw_input : String) : String :=
  dbGetSystemPrompt env "get_customer_holdings_pre" ++ "\n\nUser Input: " ++ raw_input

/-- Source `standardize_customer_arguments` (tools/customer_holdings.py lines
11-36): LLM-extracted customer ids.  Valid JSON that is not a list is
coerced to the empty list; parse failure returns the empty list with an
error-annotated parameter string.  Returns
`(customer_ids, full_prompt_text, response, standardize_parameter)`. -/
def standardize_customer_arguments (env : Env) (raw_input : String)
    (eff : Effects) : (List PyVal × String × String × String) × Effects :=
  let full_prompt := holdFullPrompt env raw_input
  let ((response, _time), eff) := call_llm_simple env full_prompt eff
  let full_prompt_text := full_prompt
  match env.jsonLoads response with
  | .ok v =>
    let customer_ids := match v with
      | .list xs => xs
      | _ => []
    ((customer_ids, full_prompt_text, response, pyRepr (PyVal.list customer_ids)), eff)
  | .error e =>
    (([], full_prompt_text, response, "LLM応答のJSONパース失敗: " ++ e.msg), eff)

/-- Row-to-dict projection of the holdings result loop (lines 112-126). -/
def holdRowToDict (r : HoldRow) : PyVal :=
  PyVal.dict
    [("holding_id", r.holding_id), ("customer_id", r.customer_id),
     ("customer_name", r.customer_name), ("product_code", r.product_code),
     ("product_name", r.product_name), ("product_type", r.product_type),
     ("quantity", PyVal.int (r.quantity.getD 0)),
     ("unit_price", PyVal.int (r.unit_price.getD 0)),
     ("current_price", PyVal.int (r.current_price.getD 0)),
     ("current_value", PyVal.int (r.current_value.getD 0)),
     ("currency", r.currency),
     ("purchase_date",
       match r.purchase_date with
       | some dt => PyVal.str dt.iso
       | Option.none => PyVal.none)]

/-- Source `format_customer_holdings_results` (lines 38-55): fixed no-results
sentence on an empty row set, otherwise post prompt + serialized rows →
LLM. -/
def format_customer_holdings_results (env : Env) (holdings : List PyVal)
    (eff : Effects) : String × Effects :=
  if holdings.isEmpty then
    ("保有商品検索結果: 該当する保有商品はありませんでした。", eff)
  else
    let system_prompt := llmUtilGetSystemPrompt env "get_customer_holdings_post"
    let data_json := env.jsonDumps (PyVal.list holdings)
    let full_prompt := system_prompt ++ "\n\nData:\n" ++ data_json
    let ((result_text, _time), eff) := call_llm_simple env full_prompt eff
    (result_text, eff)

/-- The holdings SQL statement around its placeholder list (lines 88-99). -/
def holdingsQueryA : String :=
  "\n        SELECT h.holding_id, h.quantity, h.unit_price, h.current_price, h.current_value,\n               h.purchase_date, h.customer_id,\n               p.product_code, p.product_name, p.product_type, p.currency,\n               c.name as customer_name\n        FROM holdings h\n        JOIN products p ON h.product_id = p.product_id\n        JOIN customers c ON h.customer_id = c.customer_id\n        WHERE h.customer_id IN ("

def holdingsQueryB : String :=
  ")\n        ORDER BY h.customer_id, h.current_value DESC\n        "

/-- Python `",".join(["%s"] * n)`. -/
def placeholders (n : Nat) : String :=
  String.intercalate "," (List.replicate n "%s")

/-- The `except` branch of `get_customer_holdings` (lines 150-164): a
fresh debug dict holding only the error information — the slots filled
by stages that already ran are discarded, and the response `error` field
is left at its default. -/
def holdingsError (env : Env) (e : PyExn) (eff : Effects) :
    MCPResponse HoldTrace × Effects :=
  ({ result := some ("顧客保有商品取得エラー: " ++ e.msg),
     debug_response := some { error := some e.msg, error_type := some e.ty,
                              execution_time_ms := some env.elapsedMs,
                              results_count := some 0 } }, eff)

/-- Source `get_customer_holdings` (lines 57-164). -/
def get_customer_holdings (env : Env) (params : PyVal) :
    MCPResponse HoldTrace × Effects :=
  let raw := pyStr params
  match standardize_customer_arguments env raw effInit with
  | ((customer_ids, full_prompt_text, standardize_response, standardize_parameter), eff) =>
    if customer_ids.isEmpty then
      ({ result := some "顧客特定不可のため実行できませんでした",
         debug_response :=
           some { error := some "顧客ID抽出失敗",
                  standardize_prompt := some full_prompt_text,
                  standardize_response := some standardize_response,
                  execution_time_ms := some env.elapsedMs,
                  results_count := some 0 } }, eff)
    else
      match env.dbConn with
      | .error e => holdingsError env e eff
      | .ok _ =>
        let query := holdingsQueryA ++ placeholders customer_ids.length ++ holdingsQueryB
        let eff := logQuery eff query customer_ids
        match env.holdingsDb with
        | .error e => holdingsError env e eff
        | .ok results =>
          let holdings := results.map holdRowToDict
          match format_customer_holdings_results env holdings eff with
          | (result_text, eff) =>
            ({ result := some result_text,
               debug_response :=
                 some { executed_query := some query,
                        executed_query_results := some holdings,
                        format_response := some result_text,
                        standardize_prompt := some full_prompt_text,
                        standardize_response := some standardize_response,
                        standardize_parameter := some standardize_parameter,
                        execution_time_ms := some env.elapsedMs,
                        results_count := some holdings.length } }, eff)

/-! ### tools/cash_inflow_prediction.py -/

/-- The `tool_debug` dict of `predict_cash_inflow_from_sales_notes`
(lines 20-34); `individual_analysis` is initialised to the empty list,
everything else to `None`. -/
structure CashTrace where
  standardize_prompt : Option String := Option.none
  standardize_response : Option String := Option.none
  standardize_parameter : Option String := Option.none
  executed_query : Option String := Option.none
  executed_query_results : Option (List PyVal) := Option.none
  format_request : Option String := Option.none
  format_response : Option String := Option.none
  execution_time_ms : Option Nat := Option.none
  results_count : Option Nat := Option.none
  customers_analyzed : Option Nat := Option.none
  llm_analysis_calls : Option Nat := Option.none
  predictions_found : Option Nat := Option.none
  individual_analysis : List PyVal := []

def cashTraceInit : CashTrace := {}

/-- Source `standardize_cash_inflow_prediction_arguments` (lines 70-96): like
the bond standardizer, but the parse-failure default is
`{"customer_ids": []}`. -/
def standardize_cash_inflow_prediction_arguments (env : Env)
    (raw_input : String) (d : CashTrace) (eff : Effects) :
    PyVal × CashTrace × Effects :=
  let system_prompt := spGetSystemPrompt env "cash_inflow_prediction_pre"
  let (response, eff) := call_claude env system_prompt raw_input eff
  let full_prompt_text := system_prompt ++ "\n\nUser Input: " ++ raw_input
  let d := { d with standardize_prompt := some full_prompt_text,
                    standardize_response := some response }
  match env.jsonLoads response with
  | .ok standardized_params =>
      (standardized_params,
       { d with standardize_parameter := some (pyStr standardized_params) }, eff)
  | .error e =>
      (PyVal.dict [("customer_ids", PyVal.list [])],
       { d with standardize_parameter := some ("JSONパースエラー: " ++ e.msg) }, eff)

/-- The sales-note SQL statement around its placeholder list
(lines 114-120). -/
def cashQueryA : String :=
  "\n    SELECT c.customer_id, c.name, sn.content as sales_note\n    FROM customers c \n    JOIN sales_notes sn ON c.customer_id = sn.customer_id \n    WHERE c.customer_id IN ("

def cashQueryB : String :=
  ")\n    ORDER BY c.customer_id\n    "

/-- The parse part of one loop iteration (lines 154-162):
`json.loads(prediction_response)` followed by `.get("amount")` /
`.get("date")` — `JSONDecodeError`, or `AttributeError` when the parsed
value is not a dict, is raised into the per-item `except`. -/
def cashParse (env : Env) (prediction_response : String) :
    Except PyExn (PyVal × PyVal) :=
  match env.jsonLoads prediction_response with
  | .error e => .error e
  | .ok (.dict kvs) => .ok (pyLookup kvs "amount", pyLookup kvs "date")
  | .ok _ => .error ⟨"AttributeError", "object has no attribute get"⟩

/-- The per-item success entry appended to `individual_analysis`
(lines 157-163). -/
def cashIASuccess (r : NoteRow) (llm_response : String)
    (amount date : PyVal) : PyVal :=
  PyVal.dict
    [("customer_id", r.customer_id), ("customer_name", r.name),
     ("llm_response", PyVal.str llm_response),
     ("parsed_amount", amount), ("parsed_date", date)]

/-- The per-item error entry appended to `individual_analysis`
(lines 183-187). -/
def cashIAError (r : NoteRow) (e : PyExn) : PyVal :=
  PyVal.dict
    [("customer_id", r.customer_id), ("customer_name", r.name),
     ("error", PyVal.str e.msg)]

/-- The per-item success prediction (lines 166-171). -/
def cashPred (r : NoteRow) (amount date : PyVal) : PyVal :=
  PyVal.dict
    [("customer_id", r.customer_id), ("customer_name", r.name),
     ("predicted_amount", amount), ("predicted_date", date)]

/-- The per-item failure prediction (lines 189-194): amount and date
marked `None`. -/
def cashPredFail (r : NoteRow) : PyVal :=
  PyVal.dict
    [("customer_id", r.customer_id), ("customer_name", r.name),
     ("predicted_amount", PyVal.none), ("predicted_date", PyVal.none)]

/-- The per-customer analysis loop (lines 143-194), returning
`(predictions, individual_analysis, llm_calls, predictions_found)`.
Each iteration calls the LLM (`call_claude` never raises, so `llm_calls`
increments every time), parses, and on a per-item exception appends the
error-marked entries and continues with the remaining rows. -/
def cashLoop (env : Env) (analysis_prompt : String) :
    List NoteRow → Effects → (List PyVal × List PyVal × Nat × Nat × Effects)
  | [], eff => ([], [], 0, 0, eff)
  | customer :: rest, eff =>
    let (prediction_response, eff) :=
      call_claude env analysis_prompt customer.sales_note eff
    match cashParse env prediction_response with
    | .ok (amount, date) =>
      let (preds, ias, calls, found, eff) := cashLoop env analysis_prompt rest eff
      (cashPred customer amount date :: preds,
       cashIASuccess customer prediction_response amount date :: ias,
       calls + 1,
       found + (if amount.isNone then 0 else 1), eff)
    | .error e =>
      let (preds, ias, calls, found, eff) := cashLoop env analysis_prompt rest eff
      (cashPredFail customer :: preds,
       cashIAError customer e :: ias,
       calls + 1, found, eff)

/-- Source `execute_cash_inflow_prediction_logic` (lines 98-203). -/
def execute_cash_inflow_prediction_logic (env : Env) (customer_ids : PyVal)
    (d : CashTrace) (eff : Effects) :
    Except PyExn (List PyVal) × CashTrace × Effects :=
  if !customer_ids.truthy then
    (.ok [], { d with customers_analyzed := some 0, llm_analysis_calls := some 0,
                      predictions_found := some 0 }, eff)
  else
    match env.dbConn with
    | .error e => (.error e, d, eff)
    | .ok _ =>
      match pyLen customer_ids with
      | .error e => (.error e, d, eff)
      | .ok n =>
        let query := cashQueryA ++ placeholders n ++ cashQueryB
        let d := { d with executed_query := some query }
        let eff := logQuery eff query (pyParamSeq customer_ids)
        match env.notesDb with
        | .error e => (.error e, d, eff)
        | .ok customers_with_notes =>
          let analysis_prompt := spGetSystemPrompt env "cash_inflow_prediction_analysis"
          match cashLoop env analysis_prompt customers_with_notes eff with
          | (predictions, individual_analysis, llm_calls, predictions_found, eff) =>
            (.ok predictions,
             { d with customers_analyzed := some customers_with_notes.length,
                      llm_analysis_calls := some llm_calls,
                      predictions_found := some predictions_found,
                      individual_analysis := individual_analysis,
                      executed_query_results := some predictions }, eff)

/-- Source `format_cash_inflow_prediction_results` (lines 205-229). -/
def format_cash_inflow_prediction_results (env : Env)
    (predictions : List PyVal) (user_input : String) (d : CashTrace)
    (eff : Effects) : String × CashTrace × Effects :=
  if predictions.isEmpty then
    ("入金予測分析結果: 該当する顧客の営業メモが見つかりませんでした。", d, eff)
  else
    let system_prompt := spGetSystemPrompt env "cash_inflow_prediction_post"
    let data_json := env.jsonDumps (PyVal.list predictions)
    let full_prompt := system_prompt ++ "\n\nData:\n" ++ data_json
    let d := { d with format_request := some full_prompt }
    let ((result_text, _time), eff) := call_llm_simple env full_prompt eff
    (result_text, { d with format_response := some result_text }, eff)

/-- The `except` branch of `predict_cash_inflow_from_sales_notes`
(lines 58-68). -/
def cashError (env : Env) (e : PyExn) (d : CashTrace) (eff : Effects) :
    MCPResponse CashTrace × Effects :=
  ({ result := some ("入金予測エラー: " ++ e.msg),
     error := some e.msg,
     debug_response := some { d with execution_time_ms := some env.elapsedMs,
                                     results_count := some 0 } }, eff)

/-- Source `predict_cash_inflow_from_sales_notes` (lines 12-68). -/
def predict_cash_inflow_from_sales_notes (env : Env) (params : PyVal) :
    MCPResponse CashTrace × Effects :=
  let raw := pyStr params
  match standardize_cash_inflow_prediction_arguments env raw cashTraceInit effInit with
  | (standardized_params, d, eff) =>
    match pyDictGetD standardized_params "customer_ids" (PyVal.list []) with
    | .error e => cashError env e d eff
    | .ok customer_ids =>
      match execute_cash_inflow_prediction_logic env customer_ids d eff with
      | (.error e, d, eff) => cashError env e d eff
      | (.ok predictions, d, eff) =>
        match format_cash_inflow_prediction_results env predictions raw d eff with
        | (result_text, d, eff) =>
          ({ result := some result_text,
             debug_response :=
               some { d with execution_time_ms := some env.elapsedMs,
                             results_count := some predictions.length } }, eff)

/-! ### tools/product_customers.py -/

/-- One LLM step of the `get_customers_by_product_text` debug dict
(steps 1 and 3, lines 29-34 and 41-46). -/
structure StepTrace where
  llm_request : Option String := Option.none
  llm_response : Option String := Option.none
  execution_time_ms : Nat := 0
  result : Option PyVal := Option.none

/-- The SQL step of the debug dict (lines 35-40). -/
structure SqlStepTrace where
  sql_query : Option String := Option.none
  sql_parameters : Option (List PyVal) := Option.none
  execution_time_ms : Nat := 0
  result : Option (List PyVal) := Option.none

/-- The `debug_response` dict of `get_customers_by_product_text`
(lines 26-49), initialised outside the `try`; `processed_input` is added
inside the `try` (line 63). -/
structure ProductTrace where
  function_name : String := "get_customers_by_product_text"
  input_params : PyVal
  step1_extract_ids : StepTrace := {}
  step2_sql_execution : SqlStepTrace := {}
  step3_format_results : StepTrace := {}
  total_execution_time_ms : Nat := 0
  error : Option String := Option.none
  processed_input : Option String := Option.none

/-- The caller-side text coercion (lines 53-60): a dict uses its
`text_input` entry when present, otherwise `str()`.  (Python keeps the
raw entry value; it is rendered to text here because every later use is
textual.) -/
def productTextStr (text_input : PyVal) : String :=
  match text_input with
  | .dict kvs =>
    match pyFind kvs "text_input" with
    | some v => pyStr v
    | Option.none => pyStr (PyVal.dict kvs)
  | v => pyStr v

/-- The product-holders SQL statement around its placeholder list
(lines 93-101). -/
def productQueryA : String :=
  "\n            SELECT h.product_id, p.product_name, h.customer_id, c.customer_name, \n                   h.quantity, h.current_value\n            FROM holdings h \n            JOIN customers c ON h.customer_id = c.customer_id \n            JOIN products p ON h.product_id = p.product_id\n            WHERE h.product_id IN ("

def productQueryB : String :=
  ")\n            ORDER BY h.product_id, h.current_value DESC\n        "

/-- The `except` branch of `get_customers_by_product_text`
(lines 142-149): the shared debug dict (mutated by reference up to the
failure point) gains the error and total time; the message is mirrored
into both `result` and `error`. -/
def productError (env : Env) (e : PyExn) (d : ProductTrace) (eff : Effects) :
    MCPResponse ProductTrace × Effects :=
  ({ result := some ("処理中にエラーが発生しました: " ++ e.msg),
     error := some ("処理中にエラーが発生しました: " ++ e.msg),
     debug_response := some { d with error := some e.msg,
                                     total_execution_time_ms := env.elapsedMs } }, eff)

/-- Source `get_customers_by_product_text` (lines 13-149). -/
def get_customers_by_product_text (env : Env) (text_input : PyVal) :
    MCPResponse ProductTrace × Effects :=
  let d : ProductTrace := { input_params := PyVal.dict [("text_input", text_input)] }
  let eff := effInit
  let text_input_str := productTextStr text_input
  let d := { d with processed_input := some text_input_str }
  let extract_prompt := spGetSystemPrompt env "customer_by_product_extract_ids"
  let combined_request := extract_prompt ++ "\n\n入力テキスト: " ++ text_input_str
  let d := { d with step1_extract_ids :=
    { d.step1_extract_ids with llm_request := some combined_request } }
  let (ids_response, eff) := call_claude env extract_prompt text_input_str eff
  let d := { d with step1_extract_ids :=
    { d.step1_extract_ids with llm_response := some ids_response,
                               execution_time_ms := env.elapsedMs } }
  match env.jsonLoads ids_response with
  | .error e => productError env e d eff
  | .ok product_ids =>
    let d := { d with step1_extract_ids :=
      { d.step1_extract_ids with result := some product_ids } }
    if !product_ids.truthy then
      ({ result := some "商品IDが抽出されませんでした",
         error := some "商品IDが抽出されませんでした",
         debug_response :=
           some { d with error := some "商品IDが抽出されませんでした",
                         total_execution_time_ms := env.elapsedMs } }, eff)
    else
      match pyLen product_ids with
      | .error e => productError env e d eff
      | .ok n =>
        let query := productQueryA ++ placeholders n ++ productQueryB
        let product_id_list := pyParamSeq product_ids
        let d := { d with step2_sql_execution :=
          { d.step2_sql_execution with sql_query := some query,
                                       sql_parameters := some product_id_list } }
        match env.dbConn with
        | .error e => productError env e d eff
        | .ok _ =>
          let eff := logQuery eff query product_id_list
          match env.productDb with
          | .error e => productError env e d eff
          | .ok customers =>
            let d := { d with step2_sql_execution :=
              { d.step2_sql_execution with execution_time_ms := env.elapsedMs,
                                           result := some customers } }
            let format_prompt := spGetSystemPrompt env "customer_by_product_format_results"
            let customers_json := env.jsonDumps (PyVal.list customers)
            let combined_request2 := format_prompt ++ "\n\n入力データ: " ++ customers_json
            let d := { d with step3_format_results :=
              { d.step3_format_results with llm_request := some combined_request2 } }
            let (formatted_response, eff) := call_claude env format_prompt customers_json eff
            let d := { d with step3_format_results :=
              { d.step3_format_results with llm_response := some formatted_response,
                                            execution_time_ms := env.elapsedMs,
                                            result := some (PyVal.str formatted_response) } }
            let d := { d with total_execution_time_ms := env.elapsedMs }
            ({ result := some formatted_response, debug_response := some d }, eff)

/-! ## Theorems -/

/-- Helper for C1: the bond-maturity tool always produces a response
with a present `result` string and a present debug trace. -/
theorem bond_envelope (env : Env) (p : PyVal) :
    (search_customers_by_bond_maturity env p).1.result.isSome = true ∧
    (search_customers_by_bond_maturity env p).1.debug_response.isSome = true := by
  unfold search_customers_by_bond_maturity
  constructor <;>
    (dsimp only
     repeat' split
     all_goals simp [bondError])

/-- Helper for C1: the customer-holdings tool always produces a response
with a present `result` string and a present debug trace. -/
theorem holdings_envelope (env : Env) (p : PyVal) :
    (get_customer_holdings env p).1.result.isSome = true ∧
    (get_customer_holdings env p).1.debug_response.isSome = true := by
  unfold get_customer_holdings
  constructor <;>
    (dsimp only
     repeat' split
     all_goals simp [holdingsError])

/-- Helper for C1: the cash-inflow tool always produces a response with
a present `result` string and a present debug trace. -/
theorem cash_envelope (env : Env) (p : PyVal) :
    (predict_cash_inflow_from_sales_notes env p).1.result.isSome = true ∧
    (predict_cash_inflow_from_sales_notes env p).1.debug_response.isSome = true := by
  unfold predict_cash_inflow_from_sales_notes
  constructor <;>
    (dsimp only
     repeat' split
     all_goals simp [cashError])

/-- Helper for C1: the product-customers tool always produces a response
with a present `result` string and a present debug trace. -/
theorem product_envelope (env : Env) (p : PyVal) :
    (get_customers_by_product_text env p).1.result.isSome = true ∧
    (get_customers_by_product_text env p).1.debug_response.isSome = true := by
  unfold get_customers_by_product_text
  constructor <;>
    (dsimp only
     repeat' split
     all_goals simp [productError])

/-- C1: for every tool invocation — bond-maturity search, customer
holdings, cash-inflow prediction, product-holders lookup — and every
behaviour of the external collaborators (LLM transport, prompt store,
database, JSON parsing), the returned response carries a present
(non-null) result string and a present (non-null) debug trace, whichever
pipeline stage failed. -/
theorem c1_result_and_debug_always_present (env : Env) (p : PyVal) :
    ((search_customers_by_bond_maturity env p).1.result.isSome = true ∧
     (search_customers_by_bond_maturity env p).1.debug_response.isSome = true) ∧
    ((get_customer_holdings env p).1.result.isSome = true ∧
     (get_customer_holdings env p).1.debug_response.isSome = true) ∧
    ((predict_cash_inflow_from_sales_notes env p).1.result.isSome = true ∧
     (predict_cash_inflow_from_sales_notes env p).1.debug_response.isSome = true) ∧
    ((get_customers_by_product_text env p).1.result.isSome = true ∧
     (get_customers_by_product_text env p).1.debug_response.isSome = true) :=
  ⟨bond_envelope env p, holdings_envelope env p, cash_envelope env p,
   product_envelope env p⟩

/-- C2 (amended): the three tools with a dedicated result formatter —
bond maturity, customer holdings, cash inflow — return their fixed
no-results sentence on an empty row set, leaving the trace and the
effect log (in particular the LLM call counter) untouched: no LLM call
is made.  (`get_customers_by_product_text` is excluded: its formatting
step runs the LLM even on an empty row set — see the counterexample.) -/
theorem c2_empty_rows_fixed_sentence_no_llm (env : Env) (ui : String)
    (db : BondTrace) (dc : CashTrace) (e1 e2 e3 : Effects) :
    format_bond_maturity_results env [] ui db e1 =
      ("債券満期検索結果: 該当する顧客はいませんでした。", db, e1) ∧
    format_customer_holdings_results env [] e2 =
      ("保有商品検索結果: 該当する保有商品はありませんでした。", e2) ∧
    format_cash_inflow_prediction_results env [] ui dc e3 =
      ("入金予測分析結果: 該当する顧客の営業メモが見つかりませんでした。", dc, e3) :=
  ⟨rfl, rfl, rfl⟩

/-- A concrete environment for the C2 counterexample: the step-1 LLM
extraction yields `[1]`, and the product query returns zero rows. -/
def envC2 : Env :=
  { promptStore := fun _ => PromptFetch.failure ⟨"ConnectError", "down"⟩,
    bedrock := fun _system user =>
      .ok (if user == "input text" then "[1]" else "FMT"),
    llmSimple := fun _ => ("SIMPLE", 1),
    jsonLoads := fun s =>
      if s == "[1]" then .ok (PyVal.list [PyVal.int 1])
      else .error ⟨"JSONDecodeError", "bad"⟩,
    jsonDumps := fun _ => "[]",
    dbConn := .ok (),
    bondDb := .ok [],
    holdingsDb := .ok [],
    notesDb := .ok [],
    productDb := .ok [],
    queryDb := .ok [],
    elapsedMs := 0 }

/-- C2 counterexample: in `get_customers_by_product_text`, a query stage
that returns zero rows (`step2` result `[]`) still reaches the LLM-based
formatting step — two LLM calls are made in total (extraction plus
formatting) and the result is the LLM output, not a fixed no-results
sentence.  So the claim is false for "every tool". -/
theorem c2_counterexample_product_empty_rows_calls_llm :
    ((get_customers_by_product_text envC2 (PyVal.str "input text")).1.debug_response.map
        (fun d => d.step2_sql_execution.result)) = some (some []) ∧
    (get_customers_by_product_text envC2 (PyVal.str "input text")).2.llmCalls = 2 ∧
    (get_customers_by_product_text envC2 (PyVal.str "input text")).1.result = some "FMT" :=
  ⟨rfl, rfl, rfl⟩

/-- C3 (refuted — the code interpolates the day count): running the
bond-maturity query builder with `days_until_maturity = 90` hands the
cursor an SQL string that contains `INTERVAL \x2790 days\x27` as literal
text while the bound-parameter list stays empty, and the SQL string for
`N = 91` differs from the one for `N = 90`; the claim requires the SQL
text to be free of `N` and identical across truthy values of `N`. -/
theorem c3_day_count_interpolated_into_sql :
    containsSub
      ((execute_bond_maturity_query envC2 (PyVal.int 90) PyVal.none PyVal.none
          bondTraceInit effInit).2.2.dbQueries.headD ("", [])).1
      "INTERVAL \x2790 days\x27" = true ∧
    ((execute_bond_maturity_query envC2 (PyVal.int 90) PyVal.none PyVal.none
        bondTraceInit effInit).2.2.dbQueries.headD ("", [])).2.length = 0 ∧
    ((execute_bond_maturity_query envC2 (PyVal.int 90) PyVal.none PyVal.none
        bondTraceInit effInit).2.2.dbQueries.headD ("", [])).1 ≠
      ((execute_bond_maturity_query envC2 (PyVal.int 91) PyVal.none PyVal.none
          bondTraceInit effInit).2.2.dbQueries.headD ("", [])).1 := by
  set_option maxRecDepth 10000 in
  refine ⟨by decide, by decide, by decide⟩

/-- C6: `LLMUtil.call_claude` converts any transport exception into the
sentinel string `LLMエラー: <cause>` returned as normal output (and
returns the service text verbatim on success) — by construction it
returns a plain string, so no exception reaches the calling stage;
`execute_query`, by contrast, propagates a database error to its caller
as an exception, both when the connection cannot be acquired and when
statement execution fails. -/
theorem c6_llm_errors_swallowed_db_errors_propagate (env : Env)
    (s u q : String) (ps : List PyVal) (eff : Effects) :
    (∀ e : PyExn, env.bedrock s u = .error e →
       claudeText env s u = "LLMエラー: " ++ e.msg) ∧
    (∀ t : String, env.bedrock s u = .ok t → claudeText env s u = t) ∧
    (∀ e : PyExn, env.dbConn = .error e →
       (execute_query env q ps eff).1 = .error e) ∧
    (∀ e : PyExn, env.dbConn = .ok () → env.queryDb = .error e →
       (execute_query env q ps eff).1 = .error e) := by
  refine ⟨fun e h => ?_, fun t h => ?_, fun e h => ?_, fun e h1 h2 => ?_⟩ <;>
    simp [claudeText, execute_query, *]

/-- A concrete environment for the C6 witness: the LLM transport fails
and the database statement fails. -/
def envC6 : Env :=
  { envC2 with
    bedrock := fun _ _ => .error ⟨"ClientError", "timeout"⟩,
    queryDb := .error ⟨"OperationalError", "down"⟩ }

/-- C6 witness: at a concrete environment whose LLM transport raises
`timeout` and whose database raises `down`, `call_claude` yields the
sentinel string while `execute_query` yields the propagated error. -/
theorem c6_witness :
    claudeText envC6 "sys" "user" = "LLMエラー: timeout" ∧
    (execute_query envC6 "q" [] effInit).1 =
      .error ⟨"OperationalError", "down"⟩ :=
  ⟨(c6_llm_errors_swallowed_db_errors_propagate envC6 "sys" "user" "q" [] effInit).1
      ⟨"ClientError", "timeout"⟩ rfl,
   (c6_llm_errors_swallowed_db_errors_propagate envC6 "sys" "user" "q" [] effInit).2.2.2
      ⟨"OperationalError", "down"⟩ rfl rfl⟩

/-- C5: when the LLM response fails to parse as JSON, each argument
standardizer returns its empty/default structure instead of raising —
`{}` for the bond tool, `{"customer_ids": []}` for the cash-inflow tool,
`[]` for the holdings tool — while the trace fragment still records the
combined prompt text, the raw LLM response, and an error-annotated
parameter representation. -/
theorem c5_standardizer_parse_failure_default_and_trace (env : Env)
    (raw : String) (db : BondTrace) (dc : CashTrace)
    (e1 e2 e3 : PyExn) (effb effc effh : Effects)
    (h1 : env.jsonLoads (claudeText env
            (spGetSystemPrompt env "search_customers_by_bond_maturity_pre") raw) =
          .error e1)
    (h2 : env.jsonLoads (claudeText env
            (spGetSystemPrompt env "cash_inflow_prediction_pre") raw) = .error e2)
    (h3 : env.jsonLoads ((env.llmSimple (holdFullPrompt env raw)).1) = .error e3) :
    standardize_bond_maturity_arguments env raw db effb =
      (PyVal.dict [],
       { db with
           standardize_prompt :=
             some (spGetSystemPrompt env "search_customers_by_bond_maturity_pre" ++
               "\n\nUser Input: " ++ raw),
           standardize_response :=
             some (claudeText env
               (spGetSystemPrompt env "search_customers_by_bond_maturity_pre") raw),
           standardize_parameter := some ("JSONパースエラー: " ++ e1.msg) },
       bumpLlm effb) ∧
    standardize_cash_inflow_prediction_arguments env raw dc effc =
      (PyVal.dict [("customer_ids", PyVal.list [])],
       { dc with
           standardize_prompt :=
             some (spGetSystemPrompt env "cash_inflow_prediction_pre" ++
               "\n\nUser Input: " ++ raw),
           standardize_response :=
             some (claudeText env
               (spGetSystemPrompt env "cash_inflow_prediction_pre") raw),
           standardize_parameter := some ("JSONパースエラー: " ++ e2.msg) },
       bumpLlm effc) ∧
    standardize_customer_arguments env raw effh =
      (([], holdFullPrompt env raw, (env.llmSimple (holdFullPrompt env raw)).1,
        "LLM応答のJSONパース失敗: " ++ e3.msg), bumpLlm effh) := by
  refine ⟨?_, ?_, ?_⟩
  · unfold standardize_bond_maturity_arguments
    dsimp only [call_claude]
    rw [h1]
  · unfold standardize_cash_inflow_prediction_arguments
    dsimp only [call_claude]
    rw [h2]
  · unfold standardize_customer_arguments
    dsimp only [call_llm_simple]
    rw [h3]

/-- C5 witness: at a concrete environment whose LLM transport raises (so
the sentinel text reaches the JSON parser and parsing fails), the bond
standardizer yields `{}` with the error-annotated trace slot, and the
holdings standardizer yields `[]`. -/
theorem c5_witness :
    (standardize_bond_maturity_arguments envC6 "in" bondTraceInit effInit).1 =
      PyVal.dict [] ∧
    (standardize_bond_maturity_arguments envC6 "in" bondTraceInit
        effInit).2.1.standardize_parameter = some "JSONパースエラー: bad" ∧
    ((standardize_customer_arguments envC6 "in" effInit).1).1 = [] := by
  have h := c5_standardizer_parse_failure_default_and_trace envC6 "in"
    bondTraceInit cashTraceInit ⟨"JSONDecodeError", "bad"⟩
    ⟨"JSONDecodeError", "bad"⟩ ⟨"JSONDecodeError", "bad"⟩
    effInit effInit effInit rfl rfl rfl
  exact ⟨by rw [h.1], by rw [h.1]; rfl, by rw [h.2.2]⟩

/-- The holdings standardizer only ever performs its one LLM call: the
effect log it returns is the input log with the LLM counter bumped (in
particular, it issues no database query). -/
theorem standardize_customer_arguments_eff (env : Env) (raw : String)
    (eff : Effects) :
    (standardize_customer_arguments env raw eff).2 = bumpLlm eff := by
  unfold standardize_customer_arguments
  dsimp only [call_llm_simple]
  split <;> rfl

/-- Helper for C4: in `get_customer_holdings`, an empty standardized
identifier list yields the fixed message, a null response error field,
and an empty SQL log. -/
theorem holdings_empty_ids_terminal (env : Env) (p : PyVal)
    (hH : ((standardize_customer_arguments env (pyStr p) effInit).1).1 = []) :
    (get_customer_holdings env p).1.result =
      some "顧客特定不可のため実行できませんでした" ∧
    (get_customer_holdings env p).1.error = Option.none ∧
    (get_customer_holdings env p).2.dbQueries = [] := by
  have heff := standardize_customer_arguments_eff env (pyStr p) effInit
  unfold get_customer_holdings
  dsimp only
  rcases h : standardize_customer_arguments env (pyStr p) effInit with
    ⟨⟨ids, fp, sr, spm⟩, eff⟩
  rw [h] at hH heff
  dsimp only at hH heff
  subst hH
  subst heff
  refine ⟨by simp, by simp, by simp [bumpLlm, effInit]⟩

/-- Helper for C4: in `get_customers_by_product_text`, a successfully
parsed but falsy (empty) identifier extraction yields the fixed message
and an empty SQL log. -/
theorem product_empty_ids_terminal (env : Env) (ti v : PyVal)
    (hP : env.jsonLoads (claudeText env
            (spGetSystemPrompt env "customer_by_product_extract_ids")
            (productTextStr ti)) = .ok v)
    (hv : v.truthy = false) :
    (get_customers_by_product_text env ti).1.result =
      some "商品IDが抽出されませんでした" ∧
    (get_customers_by_product_text env ti).2.dbQueries = [] := by
  unfold get_customers_by_product_text
  dsimp only [call_claude]
  rw [hP]
  dsimp only
  rw [hv]
  exact ⟨rfl, rfl⟩

/-- C4: for the identifier-required tools, an empty identifier set from
the argument standardizer terminates the pipeline before any database
query is issued (the effect log holds no SQL statement), with the fixed
could-not-resolve message as the result — a normal return, not the
exception-handling path (for the holdings tool the response `error`
field stays null; for the product tool the result is its fixed message
`商品IDが抽出されませんでした`, not the exception-path text). -/
theorem c4_empty_identifier_set_terminates_before_query (env : Env)
    (p ti v : PyVal)
    (hH : ((standardize_customer_arguments env (pyStr p) effInit).1).1 = [])
    (hP : env.jsonLoads (claudeText env
            (spGetSystemPrompt env "customer_by_product_extract_ids")
            (productTextStr ti)) = .ok v)
    (hv : v.truthy = false) :
    (get_customer_holdings env p).1.result =
      some "顧客特定不可のため実行できませんでした" ∧
    (get_customer_holdings env p).1.error = Option.none ∧
    (get_customer_holdings env p).2.dbQueries = [] ∧
    (get_customers_by_product_text env ti).1.result =
      some "商品IDが抽出されませんでした" ∧
    (get_customers_by_product_text env ti).2.dbQueries = [] := by
  obtain ⟨h1, h2, h3⟩ := holdings_empty_ids_terminal env p hH
  obtain ⟨h4, h5⟩ := product_empty_ids_terminal env ti v hP hv
  exact ⟨h1, h2, h3, h4, h5⟩

/-- A concrete environment for the C4 witness: every LLM response parses
to the empty JSON list. -/
def envC4 : Env :=
  { envC2 with
    jsonLoads := fun _ => .ok (PyVal.list []) }

/-- C4 witness: at a concrete environment whose standardizers resolve no
identifiers, both identifier-required tools return their fixed message
with an empty SQL log. -/
theorem c4_witness :
    (get_customer_holdings envC4 (PyVal.str "who?")).1.result =
      some "顧客特定不可のため実行できませんでした" ∧
    (get_customers_by_product_text envC4 (PyVal.str "which?")).2.dbQueries = [] := by
  have h := c4_empty_identifier_set_terminates_before_query envC4
    (PyVal.str "who?") (PyVal.str "which?") (PyVal.list []) rfl rfl rfl
  exact ⟨h.1, h.2.2.2.2⟩

/-- C10: when the LLM response of the holdings standardizer parses as valid
JSON that is not a list (an object, a number, …), the standardizer
coerces it to the empty identifier list, and `get_customer_holdings`
takes the same terminal path as on a parse failure: the fixed
could-not-resolve message, with no database query issued. -/
theorem c10_valid_nonlist_json_coerced_to_empty (env : Env) (p v : PyVal)
    (hv : env.jsonLoads ((env.llmSimple (holdFullPrompt env (pyStr p))).1) = .ok v)
    (hnl : v.isList = false) :
    ((standardize_customer_arguments env (pyStr p) effInit).1).1 = [] ∧
    (get_customer_holdings env p).1.result =
      some "顧客特定不可のため実行できませんでした" ∧
    (get_customer_holdings env p).2.dbQueries = [] := by
  have hempty : ((standardize_customer_arguments env (pyStr p) effInit).1).1 = [] := by
    unfold standardize_customer_arguments
    dsimp only [call_llm_simple]
    rw [hv]
    cases v <;> simp_all [PyVal.isList]
  obtain ⟨h1, _h2, h3⟩ := holdings_empty_ids_terminal env p hempty
  exact ⟨hempty, h1, h3⟩

/-- A concrete environment for the C10 witness: the LLM response parses
as a JSON object, not a list. -/
def envC10 : Env :=
  { envC2 with
    jsonLoads := fun _ => .ok (PyVal.dict [("customer_id", PyVal.int 1)]) }

/-- C10 witness: at a concrete environment whose LLM response parses as
a JSON object, `get_customer_holdings` returns the fixed message without
querying the database. -/
theorem c10_witness :
    (get_customer_holdings envC10 (PyVal.str "customer 1")).1.result =
      some "顧客特定不可のため実行できませんでした" ∧
    (get_customer_holdings envC10 (PyVal.str "customer 1")).2.dbQueries = [] := by
  have h := c10_valid_nonlist_json_coerced_to_empty envC10 (PyVal.str "customer 1")
    (PyVal.dict [("customer_id", PyVal.int 1)]) rfl rfl
  exact ⟨h.2.1, h.2.2⟩

/-- A char-list prefix is found at the start of its own extension. -/
@[simp] theorem charPre_append (p q : List Char) : charPre p (p ++ q) = true := by
  induction p with
  | nil => rfl
  | cons a as ih => simp [charPre, ih]

/-- The prompt-store fetch outcome viewed as a hit (`some text`) or a
miss/failure (`none`) — used to state C8. -/
def fetchHit : PromptFetch → Option String
  | .success (some t) => some t
  | _ => Option.none

/-- A concrete environment whose prompt store answers 404 on every key. -/
def envC8 : Env :=
  { envC2 with promptStore := fun _ => PromptFetch.httpStatus 404 }

/-- A concrete environment whose prompt store holds text for every key. -/
def envC8hit : Env :=
  { envC2 with promptStore := fun _ => PromptFetch.success (some "PTEXT") }

/-- C8 counterexample: the claim ties the fallback content to whether
the key denotes a pre or a post stage.  But on a store miss (404),
`utils.database.get_system_prompt` selects its fallback by the substring
test `"pre" in key`, so the post-stage key `cash_inflow_prediction_post`
(the substring sits inside `prediction`) receives the JSON-conversion
pre fallback, not the readable-text post fallback; and
`utils.system_prompt.get_system_prompt` on the post-stage key
`get_customer_holdings_post` returns a key-and-status message that is
neither fallback. -/
theorem c8_counterexample_fallbacks_not_stage_determined :
    dbGetSystemPrompt envC8 "cash_inflow_prediction_post" =
      "Convert input to standard format. Respond in JSON only." ∧
    ("Convert input to standard format. Respond in JSON only." : String) ≠
      "Format the results in a readable text format." ∧
    spGetSystemPrompt envC8 "get_customer_holdings_post" =
      "システムプロンプトが取得できませんでした (key: get_customer_holdings_post, status: 404)" ∧
    spGetSystemPrompt envC8 "get_customer_holdings_post" ≠
      "Format the results in a readable text format." := by
  exact ⟨by decide, by decide, by decide, by decide⟩

/-- C8 (amended): both resolvers never throw (they are total functions
into strings).  On a hit both return the stored text.  On a miss or
failure, `utils.database.get_system_prompt` returns the fixed
JSON-conversion fallback exactly when the key contains the substring
`pre` (which misclassifies post keys such as `cash_inflow_prediction_post`)
and the fixed readable-text fallback otherwise, while
`utils.system_prompt.get_system_prompt` returns a message embedding the
key and the cause instead of a stage fallback. -/
theorem c8_resolver_fallback_behaviour (env : Env) (key : String) :
    (∀ t : String, fetchHit (env.promptStore key) = some t →
       dbGetSystemPrompt env key = t ∧ spGetSystemPrompt env key = t) ∧
    (fetchHit (env.promptStore key) = Option.none →
       dbGetSystemPrompt env key =
         (if containsSub key "pre" then
            "Convert input to standard format. Respond in JSON only."
          else "Format the results in a readable text format.") ∧
       strStarts (spGetSystemPrompt env key)
         ("システムプロンプトが取得できませんでした (key: " ++ key) = true) := by
  constructor
  · intro t ht
    cases hps : env.promptStore key with
    | success t? =>
      cases t? with
      | some s =>
        rw [hps] at ht
        simp only [fetchHit, Option.some.injEq] at ht
        subst ht
        exact ⟨by simp [dbGetSystemPrompt, hps], by simp [spGetSystemPrompt, hps]⟩
      | none => rw [hps] at ht; simp [fetchHit] at ht
    | httpStatus c => rw [hps] at ht; simp [fetchHit] at ht
    | failure e => rw [hps] at ht; simp [fetchHit] at ht
  · intro hm
    cases hps : env.promptStore key with
    | success t? =>
      cases t? with
      | some s => rw [hps] at hm; simp [fetchHit] at hm
      | none =>
        refine ⟨by simp [dbGetSystemPrompt, hps, get_fallback_prompt], ?_⟩
        unfold spGetSystemPrompt
        rw [hps]
        unfold strStarts
        simp only [String.data_append, List.append_assoc]
        rw [← List.append_assoc]
        exact charPre_append _ _
    | httpStatus c =>
      refine ⟨by simp [dbGetSystemPrompt, hps, get_fallback_prompt], ?_⟩
      unfold spGetSystemPrompt
      rw [hps]
      unfold strStarts
      simp only [String.data_append, List.append_assoc]
      rw [← List.append_assoc]
      exact charPre_append _ _
    | failure e =>
      refine ⟨by simp [dbGetSystemPrompt, hps, get_fallback_prompt], ?_⟩
      unfold spGetSystemPrompt
      rw [hps]
      unfold strStarts
      simp only [String.data_append, List.append_assoc]
      rw [← List.append_assoc]
      exact charPre_append _ _

/-- C8 witness: at the always-404 store the pre-keyed bond prompt gets
the JSON-conversion fallback and the sp resolver message starts with
the key-annotated preamble; at the always-hit store both resolvers
return the stored text. -/
theorem c8_witness :
    dbGetSystemPrompt envC8 "search_customers_by_bond_maturity_pre" =
      "Convert input to standard format. Respond in JSON only." ∧
    strStarts (spGetSystemPrompt envC8 "search_customers_by_bond_maturity_pre")
      ("システムプロンプトが取得できませんでした (key: " ++
        "search_customers_by_bond_maturity_pre") = true ∧
    dbGetSystemPrompt envC8hit "anything" = "PTEXT" ∧
    spGetSystemPrompt envC8hit "anything" = "PTEXT" := by
  have hmiss := (c8_resolver_fallback_behaviour envC8
    "search_customers_by_bond_maturity_pre").2 rfl
  have hhit := (c8_resolver_fallback_behaviour envC8hit "anything").1 "PTEXT" rfl
  refine ⟨?_, hmiss.2, hhit.1, hhit.2⟩
  rw [hmiss.1]
  decide

/-- Per-item outcome of the fan-out loop, success side: what one row
contributes to `predictions`.  Used to state the isolation property. -/
def cashItemPred (env : Env) (analysis_prompt : String) (r : NoteRow) : PyVal :=
  match cashParse env (claudeText env analysis_prompt r.sales_note) with
  | .ok (amount, date) => cashPred r amount date
  | .error _ => cashPredFail r

/-- Per-item outcome of the fan-out loop: what one row contributes to
`individual_analysis`. -/
def cashItemIA (env : Env) (analysis_prompt : String) (r : NoteRow) : PyVal :=
  match cashParse env (claudeText env analysis_prompt r.sales_note) with
  | .ok (amount, date) =>
      cashIASuccess r (claudeText env analysis_prompt r.sales_note) amount date
  | .error e => cashIAError r e

/-- The fan-out loop is a per-item map: each fetched row contributes
exactly one prediction and one analysis entry, independently of the
other rows, and the LLM call counter advances once per row. -/
theorem cashLoop_eq (env : Env) (prompt : String) (rows : List NoteRow)
    (eff : Effects) :
    (cashLoop env prompt rows eff).1 = rows.map (cashItemPred env prompt) ∧
    (cashLoop env prompt rows eff).2.1 = rows.map (cashItemIA env prompt) ∧
    (cashLoop env prompt rows eff).2.2.1 = rows.length := by
  induction rows generalizing eff with
  | nil => exact ⟨rfl, rfl, rfl⟩
  | cons r rs ih =>
    obtain ⟨ih1, ih2, ih3⟩ := ih (bumpLlm eff)
    unfold cashLoop
    dsimp only [call_claude]
    cases h : cashParse env (claudeText env prompt r.sales_note) with
    | ok ad =>
      cases ad with
      | mk amount date => simp [cashItemPred, cashItemIA, h, ih1, ih2, ih3]
    | error e => simp [cashItemPred, cashItemIA, h, ih1, ih2, ih3]

/-- C9: in the cash-inflow fan-out, once the sales-note query has
returned its rows, every fetched row produces exactly one entry in the
predictions list and one entry in the per-item analysis trace (both are
per-item maps over the rows, so the failure of one item never aborts the
batch), the loop statistics count every row, and an item whose analysis
fails contributes the failure-marked prediction (`None` amount and date)
and an error-annotated analysis entry. -/
theorem c9_fanout_partial_failure_isolated (env : Env) (cids : PyVal)
    (d : CashTrace) (eff : Effects) (rows : List NoteRow) (n : Nat)
    (ht : cids.truthy = true) (hn : pyLen cids = .ok n)
    (hc : env.dbConn = .ok ()) (hdb : env.notesDb = .ok rows) :
    (execute_cash_inflow_prediction_logic env cids d eff).1 =
      .ok (rows.map (cashItemPred env
        (spGetSystemPrompt env "cash_inflow_prediction_analysis"))) ∧
    (execute_cash_inflow_prediction_logic env cids d eff).2.1.individual_analysis =
      rows.map (cashItemIA env
        (spGetSystemPrompt env "cash_inflow_prediction_analysis")) ∧
    (execute_cash_inflow_prediction_logic env cids d eff).2.1.customers_analyzed =
      some rows.length ∧
    (execute_cash_inflow_prediction_logic env cids d eff).2.1.llm_analysis_calls =
      some rows.length ∧
    (∀ r : NoteRow, ∀ e : PyExn,
       cashParse env (claudeText env
         (spGetSystemPrompt env "cash_inflow_prediction_analysis")
         r.sales_note) = .error e →
       cashItemPred env (spGetSystemPrompt env "cash_inflow_prediction_analysis") r =
         PyVal.dict [("customer_id", r.customer_id), ("customer_name", r.name),
                     ("predicted_amount", PyVal.none),
                     ("predicted_date", PyVal.none)] ∧
       cashItemIA env (spGetSystemPrompt env "cash_inflow_prediction_analysis") r =
         PyVal.dict [("customer_id", r.customer_id), ("customer_name", r.name),
                     ("error", PyVal.str e.msg)]) := by
  have hloop := cashLoop_eq env
    (spGetSystemPrompt env "cash_inflow_prediction_analysis") rows
  refine ⟨?_, ?_, ?_, ?_, ?_⟩
  case _ | _ | _ | _ =>
    obtain ⟨l1, l2, l3⟩ := hloop (logQuery eff
      (cashQueryA ++ placeholders n ++ cashQueryB) (pyParamSeq cids))
    simp only [execute_cash_inflow_prediction_logic, ht, hc, hn, hdb,
               Bool.not_true, l1, l2, l3]
    rw [if_neg (by simp)]
  case _ =>
    intro r e h
    constructor
    · simp [cashItemPred, h, cashPredFail]
    · simp [cashItemIA, h, cashIAError]

/-- The three-row scenario of the C9 witness: the analysis response of the
middle row fails to parse. -/
def rowsC9 : List NoteRow :=
  [⟨PyVal.int 1, PyVal.str "A", "note ok 1"⟩,
   ⟨PyVal.int 2, PyVal.str "B", "note bad"⟩,
   ⟨PyVal.int 3, PyVal.str "C", "note ok 3"⟩]

/-- A concrete environment for the C9 witness. -/
def envC9 : Env :=
  { envC2 with
    bedrock := fun _sys note => .ok (if note == "note bad" then "garbage" else "PRED"),
    jsonLoads := fun s =>
      if s == "PRED" then
        .ok (PyVal.dict [("amount", PyVal.int 100), ("date", PyVal.str "2026-01-01")])
      else .error ⟨"JSONDecodeError", "bad"⟩,
    notesDb := .ok rowsC9 }

/-- C9 witness: with three fetched rows of which exactly one fails, the
loop still analyses all three — three predictions, three analysis
entries, three LLM calls. -/
theorem c9_witness :
    (execute_cash_inflow_prediction_logic envC9
        (PyVal.list [PyVal.int 1, PyVal.int 2, PyVal.int 3])
        cashTraceInit effInit).2.1.llm_analysis_calls = some 3 ∧
    (execute_cash_inflow_prediction_logic envC9
        (PyVal.list [PyVal.int 1, PyVal.int 2, PyVal.int 3])
        cashTraceInit effInit).2.1.individual_analysis.length = 3 ∧
    (execute_cash_inflow_prediction_logic envC9
        (PyVal.list [PyVal.int 1, PyVal.int 2, PyVal.int 3])
        cashTraceInit effInit).1 =
      .ok (rowsC9.map (cashItemPred envC9
        (spGetSystemPrompt envC9 "cash_inflow_prediction_analysis"))) := by
  have h := c9_fanout_partial_failure_isolated envC9
    (PyVal.list [PyVal.int 1, PyVal.int 2, PyVal.int 3])
    cashTraceInit effInit rowsC9 3 rfl rfl rfl rfl
  refine ⟨?_, ?_, h.1⟩
  · rw [h.2.2.2.1]
    rfl
  · rw [h.2.1]
    rfl

/-- Helper for C7: in the bond tool, a database exception after a failed
standardize parse yields the error message in both `result` and `error`,
and a trace whose standardize slots and executed-query slot (the stages
that ran) are preserved while the format slots and query-results slot
(never ran) stay null. -/
theorem bond_db_error_trace (env : Env) (p : PyVal) (pe e : PyExn)
    (hpe : env.jsonLoads (claudeText env
             (spGetSystemPrompt env "search_customers_by_bond_maturity_pre")
             (pyStr p)) = .error pe)
    (hconn : env.dbConn = .ok ())
    (hdb : env.bondDb = .error e) :
    (search_customers_by_bond_maturity env p).1 =
      { result := some ("債券満期検索エラー: " ++ e.msg),
        error := some e.msg,
        debug_response := some
          { standardize_prompt :=
              some (spGetSystemPrompt env "search_customers_by_bond_maturity_pre" ++
                "\n\nUser Input: " ++ pyStr p),
            standardize_response :=
              some (claudeText env
                (spGetSystemPrompt env "search_customers_by_bond_maturity_pre")
                (pyStr p)),
            standardize_parameter := some ("JSONパースエラー: " ++ pe.msg),
            executed_query := some (bondBaseQuery ++ " ORDER BY h.maturity_date ASC"),
            execution_time_ms := some env.elapsedMs,
            results_count := some 0 } } := by
  unfold search_customers_by_bond_maturity standardize_bond_maturity_arguments
    execute_bond_maturity_query
  dsimp only [call_claude]
  rw [hpe, hconn, hdb]
  rfl

/-- Helper for C7: in the cash-inflow tool, a database exception after a
successful standardize yields the error message in both `result` and
`error`, preserved standardize slots and executed-query slot, and null
format slots. -/
theorem cash_db_error_trace (env : Env) (p : PyVal) (l : List PyVal) (e : PyExn)
    (hjson : env.jsonLoads (claudeText env
               (spGetSystemPrompt env "cash_inflow_prediction_pre") (pyStr p)) =
             .ok (PyVal.dict [("customer_ids", PyVal.list l)]))
    (hl : l.isEmpty = false)
    (hconn : env.dbConn = .ok ())
    (hdb : env.notesDb = .error e) :
    (predict_cash_inflow_from_sales_notes env p).1 =
      { result := some ("入金予測エラー: " ++ e.msg),
        error := some e.msg,
        debug_response := some
          { standardize_prompt :=
              some (spGetSystemPrompt env "cash_inflow_prediction_pre" ++
                "\n\nUser Input: " ++ pyStr p),
            standardize_response :=
              some (claudeText env
                (spGetSystemPrompt env "cash_inflow_prediction_pre") (pyStr p)),
            standardize_parameter :=
              some (pyStr (PyVal.dict [("customer_ids", PyVal.list l)])),
            executed_query :=
              some (cashQueryA ++ placeholders l.length ++ cashQueryB),
            execution_time_ms := some env.elapsedMs,
            results_count := some 0 } } := by
  unfold predict_cash_inflow_from_sales_notes
    standardize_cash_inflow_prediction_arguments
  dsimp only [call_claude]
  rw [hjson]
  dsimp only [pyDictGetD, pyFind]
  simp only [execute_cash_inflow_prediction_logic, PyVal.truthy, hl,
             Bool.not_false, hconn, hdb, pyLen]
  rw [if_neg (by simp [hl])]
  rfl

/-- Helper for C7 (negative side): in `get_customer_holdings`, an
unhandled database exception after a successful standardize produces a
response whose `error` field is null and whose debug dict is rebuilt
from scratch — the standardize slots that were filled are dropped. -/
theorem holdings_db_error_drops_trace (env : Env) (p : PyVal) (e : PyExn)
    (hne : ((standardize_customer_arguments env (pyStr p) effInit).1).1.isEmpty
             = false)
    (hconn : env.dbConn = .ok ())
    (hdb : env.holdingsDb = .error e) :
    (get_customer_holdings env p).1 =
      { result := some ("顧客保有商品取得エラー: " ++ e.msg),
        error := Option.none,
        debug_response := some
          { error := some e.msg, error_type := some e.ty,
            execution_time_ms := some env.elapsedMs,
            results_count := some 0 } } := by
  unfold get_customer_holdings
  dsimp only
  rcases h : standardize_customer_arguments env (pyStr p) effInit with
    ⟨⟨ids, fp, sr, spm⟩, eff⟩
  rw [h] at hne
  dsimp only at hne
  simp only [hne, hconn, hdb, Bool.false_eq_true, if_false, holdingsError]

/-- Helper for C7: in `get_customers_by_product_text`, a database
exception after a successful step-1 extraction yields the error message
in both `result` and `error`, with the by-reference debug dict
preserved: the step-1 slots and the step-2 SQL slots that were filled
survive, while the step-2 result slot and the whole step-3 stage (never
ran) stay null. -/
theorem product_db_error_trace (env : Env) (ti : PyVal) (l : List PyVal)
    (e : PyExn)
    (hjson : env.jsonLoads (claudeText env
               (spGetSystemPrompt env "customer_by_product_extract_ids")
               (productTextStr ti)) = .ok (PyVal.list l))
    (hl : l.isEmpty = false)
    (hconn : env.dbConn = .ok ())
    (hdb : env.productDb = .error e) :
    (get_customers_by_product_text env ti).1 =
      { result := some ("処理中にエラーが発生しました: " ++ e.msg),
        error := some ("処理中にエラーが発生しました: " ++ e.msg),
        debug_response := some
          { input_params := PyVal.dict [("text_input", ti)],
            step1_extract_ids :=
              { llm_request :=
                  some (spGetSystemPrompt env "customer_by_product_extract_ids" ++
                    "\n\n入力テキスト: " ++ productTextStr ti),
                llm_response :=
                  some (claudeText env
                    (spGetSystemPrompt env "customer_by_product_extract_ids")
                    (productTextStr ti)),
                execution_time_ms := env.elapsedMs,
                result := some (PyVal.list l) },
            step2_sql_execution :=
              { sql_query :=
                  some (productQueryA ++ placeholders l.length ++ productQueryB),
                sql_parameters := some l },
            error := some e.msg,
            processed_input := some (productTextStr ti),
            total_execution_time_ms := env.elapsedMs } } := by
  unfold get_customers_by_product_text
  dsimp only [call_claude]
  rw [hjson]
  dsimp only
  simp only [PyVal.truthy, hl, Bool.not_false, Bool.not_true]
  rw [if_neg (by simp)]
  dsimp only [pyLen, pyParamSeq]
  rw [hconn]
  dsimp only
  rw [hdb]
  rfl

/-- A concrete environment for the C7 counterexample and witness: every
standardizer resolves a non-empty identifier set, and every database
fetch fails with a tool-specific message. -/
def envC7 : Env :=
  { promptStore := fun k => PromptFetch.success (some k),
    bedrock := fun sys _user => .ok ("R-" ++ sys),
    llmSimple := fun _ => ("HOLDRESP", 1),
    jsonLoads := fun s =>
      if s == "R-cash_inflow_prediction_pre" then
        .ok (PyVal.dict [("customer_ids", PyVal.list [PyVal.int 1])])
      else if s == "R-customer_by_product_extract_ids" then
        .ok (PyVal.list [PyVal.int 7])
      else if s == "HOLDRESP" then .ok (PyVal.list [PyVal.str "1"])
      else .error ⟨"JSONDecodeError", "bad"⟩,
    jsonDumps := fun _ => "[]",
    dbConn := .ok (),
    bondDb := .error ⟨"OperationalError", "bdown"⟩,
    holdingsDb := .error ⟨"OperationalError", "hdown"⟩,
    notesDb := .error ⟨"OperationalError", "ndown"⟩,
    productDb := .error ⟨"OperationalError", "pdown"⟩,
    queryDb := .ok [],
    elapsedMs := 0 }

/-- C7 counterexample: in `get_customer_holdings`, when the holdings
query raises after a successful standardize stage, the error message is
captured as the result text, but — contrary to the claim — the
response `error` field stays null and the standardize-stage trace
slots that were filled are gone (the debug dict is rebuilt with only
error information). -/
theorem c7_counterexample_holdings_error_field_and_trace :
    (get_customer_holdings envC7 (PyVal.str "c1")).1.result =
      some "顧客保有商品取得エラー: hdown" ∧
    (get_customer_holdings envC7 (PyVal.str "c1")).1.error = Option.none ∧
    (get_customer_holdings envC7 (PyVal.str "c1")).1.debug_response.map
      (fun d => d.standardize_prompt) = some Option.none :=
  ⟨rfl, rfl, rfl⟩

/-- C7 (amended): for `search_customers_by_bond_maturity`,
`predict_cash_inflow_from_sales_notes` and
`get_customers_by_product_text`, an unhandled exception (here: a
database error) produces a response carrying the error message both as
result text and in the `error` field, with the trace slots of completed
stages preserved and the slots of stages that never ran still null.
`get_customer_holdings` keeps only the result-text half: its response
`error` field stays null and its rebuilt debug dict drops the
completed-stage slots, retaining the message only in the error
slot of the trace. -/
theorem c7_error_capture_and_trace_preservation (env : Env) (p q r s : PyVal)
    (pe e1 e2 e3 e4 : PyExn) (l l2 : List PyVal)
    (hpe : env.jsonLoads (claudeText env
             (spGetSystemPrompt env "search_customers_by_bond_maturity_pre")
             (pyStr p)) = .error pe)
    (hdbB : env.bondDb = .error e1)
    (hjson : env.jsonLoads (claudeText env
               (spGetSystemPrompt env "cash_inflow_prediction_pre") (pyStr q)) =
             .ok (PyVal.dict [("customer_ids", PyVal.list l)]))
    (hl : l.isEmpty = false)
    (hdbC : env.notesDb = .error e2)
    (hne : ((standardize_customer_arguments env (pyStr r) effInit).1).1.isEmpty
             = false)
    (hdbH : env.holdingsDb = .error e3)
    (hjson2 : env.jsonLoads (claudeText env
                (spGetSystemPrompt env "customer_by_product_extract_ids")
                (productTextStr s)) = .ok (PyVal.list l2))
    (hl2 : l2.isEmpty = false)
    (hdbP : env.productDb = .error e4)
    (hconn : env.dbConn = .ok ()) :
    ((search_customers_by_bond_maturity env p).1.result =
       some ("債券満期検索エラー: " ++ e1.msg) ∧
     (search_customers_by_bond_maturity env p).1.error = some e1.msg ∧
     (search_customers_by_bond_maturity env p).1.debug_response.map
       (fun d => (d.standardize_prompt, d.standardize_response,
                  d.standardize_parameter, d.executed_query)) =
       some (some (spGetSystemPrompt env "search_customers_by_bond_maturity_pre" ++
               "\n\nUser Input: " ++ pyStr p),
             some (claudeText env
               (spGetSystemPrompt env "search_customers_by_bond_maturity_pre")
               (pyStr p)),
             some ("JSONパースエラー: " ++ pe.msg),
             some (bondBaseQuery ++ " ORDER BY h.maturity_date ASC")) ∧
     (search_customers_by_bond_maturity env p).1.debug_response.map
       (fun d => (d.format_request, d.format_response, d.executed_query_results)) =
       some (Option.none, Option.none, Option.none)) ∧
    ((predict_cash_inflow_from_sales_notes env q).1.result =
       some ("入金予測エラー: " ++ e2.msg) ∧
     (predict_cash_inflow_from_sales_notes env q).1.error = some e2.msg ∧
     (predict_cash_inflow_from_sales_notes env q).1.debug_response.map
       (fun d => (d.standardize_prompt, d.executed_query)) =
       some (some (spGetSystemPrompt env "cash_inflow_prediction_pre" ++
               "\n\nUser Input: " ++ pyStr q),
             some (cashQueryA ++ placeholders l.length ++ cashQueryB)) ∧
     (predict_cash_inflow_from_sales_notes env q).1.debug_response.map
       (fun d => (d.format_request, d.format_response, d.executed_query_results)) =
       some (Option.none, Option.none, Option.none)) ∧
    ((get_customers_by_product_text env s).1.result =
       some ("処理中にエラーが発生しました: " ++ e4.msg) ∧
     (get_customers_by_product_text env s).1.error =
       some ("処理中にエラーが発生しました: " ++ e4.msg) ∧
     (get_customers_by_product_text env s).1.debug_response.map
       (fun d => (d.step1_extract_ids.llm_request,
                  d.step1_extract_ids.llm_response,
                  d.step1_extract_ids.result,
                  d.step2_sql_execution.sql_query,
                  d.step2_sql_execution.sql_parameters,
                  d.error)) =
       some (some (spGetSystemPrompt env "customer_by_product_extract_ids" ++
               "\n\n入力テキスト: " ++ productTextStr s),
             some (claudeText env
               (spGetSystemPrompt env "customer_by_product_extract_ids")
               (productTextStr s)),
             some (PyVal.list l2),
             some (productQueryA ++ placeholders l2.length ++ productQueryB),
             some l2,
             some e4.msg) ∧
     (get_customers_by_product_text env s).1.debug_response.map
       (fun d => (d.step2_sql_execution.result,
                  d.step3_format_results.llm_request,
                  d.step3_format_results.llm_response,
                  d.step3_format_results.result)) =
       some (Option.none, Option.none, Option.none, Option.none)) ∧
    ((get_customer_holdings env r).1.result =
       some ("顧客保有商品取得エラー: " ++ e3.msg) ∧
     (get_customer_holdings env r).1.error = Option.none ∧
     (get_customer_holdings env r).1.debug_response.map
       (fun d => (d.standardize_prompt, d.error)) =
       some (Option.none, some e3.msg)) := by
  have hb := bond_db_error_trace env p pe e1 hpe hconn hdbB
  have hc := cash_db_error_trace env q l e2 hjson hl hconn hdbC
  have hp := product_db_error_trace env s l2 e4 hjson2 hl2 hconn hdbP
  have hh := holdings_db_error_drops_trace env r e3 hne hconn hdbH
  refine ⟨⟨?_, ?_, ?_, ?_⟩, ⟨?_, ?_, ?_, ?_⟩, ⟨?_, ?_, ?_, ?_⟩, ⟨?_, ?_, ?_⟩⟩ <;>
    first
    | (rw [hb]; try rfl)
    | (rw [hc]; try rfl)
    | (rw [hp]; try rfl)
    | (rw [hh]; try rfl)

/-- C7 witness: at a concrete environment where the database fetch of
each tool fails after a completed standardize stage, the bond and
product tools carry the message in both result and error fields, the
cash tool sets its error field, while the error field of the holdings
tool is null. -/
theorem c7_witness :
    (search_customers_by_bond_maturity envC7 (PyVal.str "w")).1.result =
      some "債券満期検索エラー: bdown" ∧
    (search_customers_by_bond_maturity envC7 (PyVal.str "w")).1.error =
      some "bdown" ∧
    (predict_cash_inflow_from_sales_notes envC7 (PyVal.str "w")).1.error =
      some "ndown" ∧
    (get_customers_by_product_text envC7 (PyVal.str "w")).1.result =
      some "処理中にエラーが発生しました: pdown" ∧
    (get_customers_by_product_text envC7 (PyVal.str "w")).1.error =
      some "処理中にエラーが発生しました: pdown" ∧
    (get_customer_holdings envC7 (PyVal.str "w")).1.error = Option.none := by
  have h := c7_error_capture_and_trace_preservation envC7
    (PyVal.str "w") (PyVal.str "w") (PyVal.str "w") (PyVal.str "w")
    ⟨"JSONDecodeError", "bad"⟩ ⟨"OperationalError", "bdown"⟩
    ⟨"OperationalError", "ndown"⟩ ⟨"OperationalError", "hdown"⟩
    ⟨"OperationalError", "pdown"⟩
    [PyVal.int 1] [PyVal.int 7] rfl rfl rfl rfl rfl rfl rfl rfl rfl rfl rfl
  exact ⟨h.1.1, h.1.2.1, h.2.1.2.1, h.2.2.1.1, h.2.2.1.2.1, h.2.2.2.2.1⟩

end CRM
